import Mathlib

/-!
Shallow embedding of `src/functions.py` (EvolutionaryANN helper functions).

Scalars are modelled by `ℚ` (exact arithmetic in place of IEEE `float64`).
A 1-D NumPy array is a `List ℚ`, a 2-D array a `List (List ℚ)` (list of
rows, row-major).  An `MLPClassifier` is reduced to its evolvable state:
the `coefs_` list of weight matrices and the `intercepts_` list of bias
vectors; everything else about the sklearn object is irrelevant to the
operators under study.

Randomness is passed explicitly: each `random.random()` /
`np.random.uniform()` / `np.random.normal(0, 2)` / shuffle draw becomes an
argument (a function of the draw position, or a stream consumed in call
order), so every operator is a pure, executable function of its inputs and
its random draws.
-/

namespace EvoANN

abbrev Vec := List ℚ
abbrev Mat := List (List ℚ)

/-- The evolvable state of an `MLPClassifier`: `coefs_` (list of 2-D
weight tensors) and `intercepts_` (list of 1-D bias tensors). -/
structure Network where
  coefs_ : List Mat
  intercepts_ : List Vec
deriving DecidableEq

/-- `np.ravel` of a 2-D tensor: row-major flattening. -/
def ravel2 (m : Mat) : Vec := m.flatten

/-- The shape of a 2-D tensor, as the list of its row lengths. -/
def shape2 (m : Mat) : List Nat := m.map List.length

/-- `.reshape(shape)`: chunk a flat vector back into the row lengths of a
template tensor. -/
def reshapeLike : Mat → Vec → Mat
  | [], _ => []
  | row :: rest, flat => flat.take row.length :: reshapeLike rest (flat.drop row.length)

/-- `int(u * n)` for a draw `u ∈ [0, 1)`: truncation equals floor. -/
def pyIdx (u : ℚ) (n : Nat) : Nat := (Int.toNat ⌊u * n⌋)

/-- Python's `/` on numbers: raises `ZeroDivisionError` on a zero divisor,
modelled as `none`. -/
def pyDiv (a b : ℚ) : Option ℚ := if b = 0 then none else some (a / b)

/-- `initialise_population(size, env)`: the loop
`for _ in range(size): population.append(create_new_network(env))`.
`create_new_network` builds its network from the external sklearn/gym
collaborators (excluded from the core); `create k` stands for the result
of the k-th `create_new_network(env)` call (the environment's samplers
advance between calls, so successive results may differ).  There is no
size validation in the source. -/
def initialise_population (size : Nat) (create : Nat → Network) : List Network :=
  (List.range size).map create

/-- The environment contract used by `simulate_agent`: `reset` yields the
initial observation, `step` maps an observation and an action to the next
observation, a reward and the `done` flag (the gym state is folded into
the observation type `ω`). -/
structure SimEnv (ω : Type) where
  reset : ω
  step : ω → Int → ω × ℚ × Bool

/-- The `while not done` loop body of `simulate_agent`: one `env.step` per
iteration, accumulating `score += reward`, returning on `done`.  `fuel`
bounds the number of iterations; a rollout that has not terminated within
`fuel` steps is `none` (the Python loop simply has not returned yet). -/
def simSteps {ω : Type} (env : SimEnv ω) (predict : ω → Int) :
    Nat → ω → ℚ → Option ℚ
  | 0, _, _ => none
  | fuel + 1, observation, score =>
    let s := env.step observation (predict observation)
    if s.2.2 then some (score + s.2.1)
    else simSteps env predict fuel s.1 (score + s.2.1)

/-- `simulate_agent(agent, env)` (score path; the `render`/`savetofile`
side effects are I/O on the excluded visualization collaborators and do
not touch the score). -/
def simulate_agent {ω : Type} (predict : ω → Int) (env : SimEnv ω) (fuel : Nat) :
    Option ℚ :=
  simSteps env predict fuel env.reset 0

/-- The list of rewards produced by the rollout (and whether it reached a
`done` within `fuel` steps), defined directly from the environment. -/
def rolloutRewards {ω : Type} (env : SimEnv ω) (predict : ω → Int) :
    Nat → ω → List ℚ × Bool
  | 0, _ => ([], false)
  | fuel + 1, observation =>
    let s := env.step observation (predict observation)
    if s.2.2 then ([s.2.1], true)
    else
      let rest := rolloutRewards env predict fuel s.1
      (s.2.1 :: rest.1, rest.2)

/-- `mutation_rate(score, goal) = 1 - (score/goal)` (the value computed
when the division succeeds, i.e. `goal ≠ 0`). -/
def mutation_rate (score goal : ℚ) : ℚ := 1 - score / goal

/-- `mutation_rate` as actually executed by Python: the unguarded division
`score/goal` raises `ZeroDivisionError` when `goal == 0`. -/
def mutation_rate_run (score goal : ℚ) : Option ℚ :=
  (pyDiv score goal).map fun q => 1 - q

/-- `np.mean(np.array([...]), axis=0)` over a list of 1-D tensors:
element-wise arithmetic mean (template shape from the first element, as
`np.mean` of an empty stack is undefined / the population is non-empty). -/
def find_mean1 (vs : List Vec) : Vec :=
  match vs with
  | [] => []
  | t :: _ => (List.range t.length).map fun j =>
      (vs.map fun v => v.getD j 0).sum / vs.length

/-- `np.mean(..., axis=0)` over a list of 2-D tensors: element-wise mean. -/
def find_mean2 (ms : List Mat) : Mat :=
  match ms with
  | [] => []
  | t :: _ => (List.range t.length).map fun i =>
      (List.range ((t.getD i []).length)).map fun j =>
        (ms.map fun m => (m.getD i []).getD j 0).sum / ms.length

/-- `average_weight_and_bias(population, env)`: `find_mean` of
`coefs_[0]`, `coefs_[1]`, `intercepts_[0]`, `intercepts_[1]` across the
population.  The source also builds a scaffold via `create_new_network(env)`
but then overwrites both `coefs_` and `intercepts_` wholesale, so the
result's parameters are exactly the four means. -/
def average_weight_and_bias (population : List Network) : Network :=
  { coefs_ := [find_mean2 (population.map fun el => el.coefs_.getD 0 []),
               find_mean2 (population.map fun el => el.coefs_.getD 1 [])],
    intercepts_ := [find_mean1 (population.map fun el => el.intercepts_.getD 0 []),
                    find_mean1 (population.map fun el => el.intercepts_.getD 1 [])] }

/-- Per-element blend of `de_crossover`:
`coef1Flat + np.random.uniform(0, 1, len(coef1Flat)) * (coef2Flat - coef1Flat)`,
with `u j` the j-th entry of the uniform draw vector. -/
def blendFlat (aF bF : Vec) (u : Nat → ℚ) : Vec :=
  (List.range aF.length).map fun j =>
    aF.getD j 0 + u j * (bF.getD j 0 - aF.getD j 0)

/-- `de_crossover(nn1, nn2)`: for each layer `i in range(2)`, blend the
flattened weight tensors and reshape back, and likewise the bias tensors
(whose 1-D ravel/reshape are the identity).  All NumPy operations here
(`+`, `*`, `-` on arrays, `np.array`, `.reshape` of a fresh array)
allocate new arrays: no view of a parent is ever written, so the parents
are left untouched and the embedding is a pure function of them.
`uc i`/`ui i` are the uniform draw vectors for layer `i`. -/
def de_crossover (nn1 nn2 : Network) (uc ui : Nat → Nat → ℚ) :
    List Mat × List Vec :=
  ([0, 1].map fun i =>
      reshapeLike (nn1.coefs_.getD i [])
        (blendFlat (ravel2 (nn1.coefs_.getD i [])) (ravel2 (nn2.coefs_.getD i [])) (uc i)),
   [0, 1].map fun i =>
      blendFlat (nn1.intercepts_.getD i []) (nn2.intercepts_.getD i []) (ui i))

/-- The per-element trial-vector loop of `de_crossover_classic` on one
flattened tensor: `if r < CR or j == R: flat[j] = d1[j] + F*(d2[j] - d3[j])`
with `CR = 0.9`, `F = 0.8`. -/
def deTrialFlat (tF d1F d2F d3F : Vec) (R : Nat) (r : Nat → ℚ) : Vec :=
  (List.range tF.length).map fun j =>
    if r j < 9/10 ∨ j = R then d1F.getD j 0 + 4/5 * (d2F.getD j 0 - d3F.getD j 0)
    else tF.getD j 0

/-- `de_crossover_classic(agent, randomAgents)`.  `Rc i` / `Ri i` are the
results of `np.random.random_integers(0, len(tensor))` for layer `i`
(drawn over `[0, first-dimension length]`, both ends inclusive); `rc i j`
/ `ri i j` are the per-element `np.random.uniform()` draws.

In the source, `agentCoefFlat = np.ravel(agent.coefs_[i])` is a view of
the contiguous tensor, so the assignments `agentCoefFlat[j] = ...` write
into `agent.coefs_[i]` itself, and `.reshape(shape)` of that view shares
the same buffer; likewise for the intercepts.  The function therefore
mutates the target agent in place; the second component of the result is
the agent's tensor state after the call.  The three donors are only read. -/
def de_crossover_classic (agent : Network) (randomAgents : List Network)
    (Rc Ri : Nat → Nat) (rc ri : Nat → Nat → ℚ) :
    (List Mat × List Vec) × Network :=
  let da := fun (k : Nat) => randomAgents.getD k ⟨[], []⟩
  let newcoefs := [0, 1].map fun i =>
    reshapeLike (agent.coefs_.getD i [])
      (deTrialFlat (ravel2 (agent.coefs_.getD i []))
        (ravel2 ((da 0).coefs_.getD i [])) (ravel2 ((da 1).coefs_.getD i []))
        (ravel2 ((da 2).coefs_.getD i [])) (Rc i) (rc i))
  let newintercepts := [0, 1].map fun i =>
    deTrialFlat (agent.intercepts_.getD i [])
      ((da 0).intercepts_.getD i []) ((da 1).intercepts_.getD i [])
      ((da 2).intercepts_.getD i []) (Ri i) (ri i)
  ((newcoefs, newintercepts), { coefs_ := newcoefs, intercepts_ := newintercepts })

/-!
`mutationFunc_W_B(agent, mutation_rate, method)`.

The Python RNG calls are modelled by three streams, consumed in call
order: `rs` for `random.random()` (the coin, `random1`, `random2`, and
the draws of the `uniform` branch), `ns` for `np.random.normal(0, 2)`
(the `gaussian` branch), and `bs` for the `_randbelow` results consumed
internally by `random.shuffle` (the `scramble` branch).  A draw from an
exhausted stream yields 0; theorems either quantify over all streams or
supply streams long enough for the run.
-/

/-- State of the three random streams. -/
structure RngSt where
  rs : List ℚ
  ns : List ℚ
  bs : List Nat
deriving DecidableEq

/-- Pop one rational draw (0 when the stream is exhausted). -/
def take1 (l : List ℚ) : ℚ × List ℚ :=
  match l with
  | [] => (0, [])
  | x :: xs => (x, xs)

/-- Pop one `_randbelow` draw. -/
def takeN (l : List Nat) : Nat × List Nat :=
  match l with
  | [] => (0, [])
  | x :: xs => (x, xs)

/-- The descending indices `m-1, …, 1` walked by CPython's
`random.shuffle` (Fisher–Yates from the top). -/
def fyIdx (m : Nat) : List Nat := ((List.range (m - 1)).map (· + 1)).reverse

/-- Exchange the values at two positions of a 1-D array (the scalar case
of `x[i], x[j] = x[j], x[i]`: indexing a 1-D NumPy array yields scalar
copies, so the exchange is genuine). -/
def swapPos (v : Vec) (i j : Nat) : Vec :=
  let xi := v.getD i 0
  let xj := v.getD j 0
  (v.set i xj).set j xi

/-- `random.shuffle` applied to the 1-D slice `el[lo:hi]` (a view, so the
swaps land in `el`); each step draws `j = randbelow(i+1)`. -/
def shuffle1Go : List Nat → Vec → Nat → List Nat → Vec × List Nat
  | [], v, _, bs => (v, bs)
  | i :: rest, v, lo, bs =>
    let p := takeN bs
    shuffle1Go rest (swapPos v (lo + i) (lo + (p.1 % (i + 1)))) lo p.2

/-- Shuffle of the slice `el[lo:hi]` of a 1-D tensor (Python slices clamp
`hi` to the length). -/
def shuffle1 (v : Vec) (lo hi : Nat) (bs : List Nat) : Vec × List Nat :=
  shuffle1Go (fyIdx (min hi v.length - lo)) v lo bs

/-- `random.shuffle` on a slice of a 2-D tensor: `x[i], x[j] = x[j], x[i]`
where `x[i]`/`x[j]` are row views, so the tuple holds views, the first
assignment overwrites row `i` with row `j`'s values, and the second
assignment then copies row `i` (now already row `j`'s values) back into
row `j` — net effect: row `i` is replaced by row `j`, row `j` is
unchanged.  The embedding reproduces that one-sided copy. -/
def shuffle2Go : List Nat → Mat → Nat → List Nat → Mat × List Nat
  | [], m, _, bs => (m, bs)
  | i :: rest, m, lo, bs =>
    let p := takeN bs
    shuffle2Go rest (m.set (lo + i) (m.getD (lo + (p.1 % (i + 1))) [])) lo p.2

/-- Shuffle of the row slice `el[lo:hi]` of a 2-D tensor. -/
def shuffle2 (m : Mat) (lo hi : Nat) (bs : List Nat) : Mat × List Nat :=
  shuffle2Go (fyIdx (min hi m.length - lo)) m lo bs

/-- `el[lo:hi] = el[lo:hi][::-1]` on a 1-D tensor: reverse the slice
(NumPy buffers the overlapping assignment). -/
def revSlice1 (v : Vec) (lo hi : Nat) : Vec :=
  v.take lo ++ ((v.take hi).drop lo).reverse ++ v.drop hi

/-- `el[lo:hi] = el[lo:hi][::-1]` on the rows of a 2-D tensor. -/
def revSlice2 (m : Mat) (lo hi : Nat) : Mat :=
  m.take lo ++ ((m.take hi).drop lo).reverse ++ m.drop hi

/-- The `for swappedRow in el` loop over a 1-D tensor `el` (the
intercepts case, where `swappedRow` is a NumPy scalar).  `idxs` is the
fixed iteration range `0, …, len(el)-1`; `v` is the current array state.
Per iteration: coin `random.random() < mutation_rate`; on success draw
`random1 = int(random.random()*len(el))`, `random2 = int(random.random()*len(el))`,
order them, and dispatch on `method`:
* `swap`: `swappedRow, el[random1] = el[random1], swappedRow` rebinds the
  loop variable and writes the current element's value into `el[random1]`
  — a one-sided overwrite, not an exchange;
* `scramble`: shuffle the slice in place;
* `inverse`: reverse the slice in place;
* otherwise `swappedRow` has type `np.float64`, and `swappedRow += np.random.normal(0, 2)`
  (`gaussian`) or `swappedRow = random.random()` (`uniform`) allocate a
  new scalar and rebind the loop variable — the array is not written. -/
def mutVecGo (method : String) (rate : ℚ) :
    List Nat → Vec → RngSt → Vec × RngSt
  | [], v, g => (v, g)
  | i :: rest, v, g =>
    let c := take1 g.rs
    if c.1 < rate then
      let u1 := take1 c.2
      let u2 := take1 u1.2
      let a := pyIdx u1.1 v.length
      let b := pyIdx u2.1 v.length
      let r1 := if a > b then b else a
      let r2 := if a > b then a else b
      if method = "swap" then
        mutVecGo method rate rest (v.set r1 (v.getD i 0)) ⟨u2.2, g.ns, g.bs⟩
      else if method = "scramble" then
        let s := shuffle1 v r1 r2 g.bs
        mutVecGo method rate rest s.1 ⟨u2.2, g.ns, s.2⟩
      else if method = "inverse" then
        mutVecGo method rate rest (revSlice1 v r1 r2) ⟨u2.2, g.ns, g.bs⟩
      else if method = "gaussian" then
        let n := take1 g.ns
        mutVecGo method rate rest v ⟨u2.2, n.2, g.bs⟩
      else if method = "uniform" then
        let u3 := take1 u2.2
        mutVecGo method rate rest v ⟨u3.2, g.ns, g.bs⟩
      else
        mutVecGo method rate rest v ⟨u2.2, g.ns, g.bs⟩
    else
      mutVecGo method rate rest v ⟨c.2, g.ns, g.bs⟩

/-- The `for swappedRow in el` loop over a 2-D tensor `el` (the coefs
case, where `swappedRow` is a row view and `len(el)` counts rows).
* `swap` copies the current row's values into row `random1` (the loop
  variable itself is merely rebound);
* `scramble`/`inverse` act on the row slice;
* otherwise `type(swappedRow) == np.float64` is false, so
  `for inner in swappedRow` draws once per scalar of the row
  (`np.random.normal(0, 2)` for `gaussian`, `random.random()` for
  `uniform`) and rebinds `inner` each time — no array element is written. -/
def mutMatGo (method : String) (rate : ℚ) :
    List Nat → Mat → RngSt → Mat × RngSt
  | [], m, g => (m, g)
  | i :: rest, m, g =>
    let c := take1 g.rs
    if c.1 < rate then
      let u1 := take1 c.2
      let u2 := take1 u1.2
      let a := pyIdx u1.1 m.length
      let b := pyIdx u2.1 m.length
      let r1 := if a > b then b else a
      let r2 := if a > b then a else b
      if method = "swap" then
        mutMatGo method rate rest (m.set r1 (m.getD i [])) ⟨u2.2, g.ns, g.bs⟩
      else if method = "scramble" then
        let s := shuffle2 m r1 r2 g.bs
        mutMatGo method rate rest s.1 ⟨u2.2, g.ns, s.2⟩
      else if method = "inverse" then
        mutMatGo method rate rest (revSlice2 m r1 r2) ⟨u2.2, g.ns, g.bs⟩
      else if method = "gaussian" then
        mutMatGo method rate rest m ⟨u2.2, g.ns.drop (m.getD i []).length, g.bs⟩
      else if method = "uniform" then
        mutMatGo method rate rest m ⟨u2.2.drop (m.getD i []).length, g.ns, g.bs⟩
      else
        mutMatGo method rate rest m ⟨u2.2, g.ns, g.bs⟩
    else
      mutMatGo method rate rest m ⟨c.2, g.ns, g.bs⟩

/-- One intercepts tensor processed by the row loop. -/
def mutVec (method : String) (rate : ℚ) (v : Vec) (g : RngSt) : Vec × RngSt :=
  mutVecGo method rate (List.range v.length) v g

/-- One coefs tensor processed by the row loop. -/
def mutMat (method : String) (rate : ℚ) (m : Mat) (g : RngSt) : Mat × RngSt :=
  mutMatGo method rate (List.range m.length) m g

/-- `for el in node_item` over the coefs list. -/
def mutMats (method : String) (rate : ℚ) :
    List Mat → RngSt → List Mat × RngSt
  | [], g => ([], g)
  | m :: rest, g =>
    let p := mutMat method rate m g
    let q := mutMats method rate rest p.2
    (p.1 :: q.1, q.2)

/-- `for el in node_item` over the intercepts list. -/
def mutVecs (method : String) (rate : ℚ) :
    List Vec → RngSt → List Vec × RngSt
  | [], g => ([], g)
  | v :: rest, g =>
    let p := mutVec method rate v g
    let q := mutVecs method rate rest p.2
    (p.1 :: q.1, q.2)

/-- `mutationFunc_W_B(agent, mutation_rate, method)`: `item == 0`
processes `agent.coefs_`, then `item == 1` processes `agent.intercepts_`;
the (possibly) mutated agent is returned. -/
def mutationFunc_W_B (agent : Network) (rate : ℚ) (method : String)
    (g : RngSt) : Network :=
  let p := mutMats method rate agent.coefs_ g
  let q := mutVecs method rate agent.intercepts_ p.2
  ⟨p.1, q.1⟩

/-! ### List helper lemmas -/

/-- `getD` of a tabulated list recovers the tabulated function. -/
theorem getD_range_map {α : Type} (n : Nat) (f : Nat → α) (d : α) (i : Nat)
    (h : i < n) : ((List.range n).map f).getD i d = f i := by
  simp [List.getD_eq_getElem?_getD, List.getElem?_range h]

/-- Tabulating a list by `getD` over its own range recovers the list. -/
theorem range_map_getD {α : Type} (l : List α) (d : α) :
    (List.range l.length).map (fun j => l.getD j d) = l := by
  apply List.ext_getElem (by simp)
  intro i h1 h2
  simp [List.getD_eq_getElem?_getD, List.getElem?_eq_getElem h2]

/-- Two-dimensional tabulation by `getD` recovers the matrix. -/
theorem tableRecover2 (t : Mat) :
    (List.range t.length).map (fun i =>
      (List.range ((t.getD i []).length)).map fun j => (t.getD i []).getD j 0) = t := by
  apply List.ext_getElem (by simp)
  intro i h1 h2
  simp only [List.getElem_map, List.getElem_range]
  have ht : t.getD i [] = t.get ⟨i, by simpa using h2⟩ := by
    simp [List.getD_eq_getElem?_getD, List.getElem?_eq_getElem (by simpa using h2 : i < t.length)]
  rw [ht]
  exact range_map_getD _ 0

theorem blendFlat_length (aF bF : Vec) (u : Nat → ℚ) :
    (blendFlat aF bF u).length = aF.length := by
  simp [blendFlat]

theorem deTrialFlat_length (tF d1F d2F d3F : Vec) (R : Nat) (r : Nat → ℚ) :
    (deTrialFlat tF d1F d2F d3F R r).length = tF.length := by
  simp [deTrialFlat]

theorem blendFlat_getD (aF bF : Vec) (u : Nat → ℚ) (j : Nat) (hj : j < aF.length) :
    (blendFlat aF bF u).getD j 0 =
      aF.getD j 0 + u j * (bF.getD j 0 - aF.getD j 0) :=
  getD_range_map _ _ _ _ hj

theorem deTrialFlat_getD (tF d1F d2F d3F : Vec) (R : Nat) (r : Nat → ℚ)
    (j : Nat) (hj : j < tF.length) :
    (deTrialFlat tF d1F d2F d3F R r).getD j 0 =
      if r j < 9/10 ∨ j = R then d1F.getD j 0 + 4/5 * (d2F.getD j 0 - d3F.getD j 0)
      else tF.getD j 0 :=
  getD_range_map _ _ _ _ hj

/-- Blending a flat tensor with itself is the identity. -/
theorem blendFlat_self (aF : Vec) (u : Nat → ℚ) : blendFlat aF aF u = aF := by
  simp only [blendFlat, sub_self, mul_zero, add_zero]
  exact range_map_getD aF 0

/-- `reshape` after `ravel` round-trips the tensor. -/
theorem reshapeLike_ravel (t : Mat) : reshapeLike t (ravel2 t) = t := by
  induction t with
  | nil => rfl
  | cons row rest ih =>
    show (row ++ ravel2 rest).take row.length ::
        reshapeLike rest ((row ++ ravel2 rest).drop row.length) = row :: rest
    rw [List.take_left, List.drop_left, ih]

/-- Reshaping a flat vector of the right length preserves the shape. -/
theorem shape2_reshapeLike (t : Mat) : ∀ f : Vec, f.length = (ravel2 t).length →
    shape2 (reshapeLike t f) = shape2 t := by
  induction t with
  | nil => intro f _; rfl
  | cons row rest ih =>
    intro f h
    have h' : f.length = row.length + (ravel2 rest).length := by
      simpa [ravel2] using h
    have h1 : row.length ≤ f.length := by omega
    have h2 : (f.drop row.length).length = (ravel2 rest).length := by
      simp only [List.length_drop]; omega
    have h3 := ih (f.drop row.length) h2
    simp only [shape2, reshapeLike, List.map_cons] at h3 ⊢
    rw [List.length_take, Nat.min_eq_left h1, h3]

/-- Ravelling a reshaped flat vector of the right length recovers it. -/
theorem ravel2_reshapeLike (t : Mat) : ∀ f : Vec, f.length = (ravel2 t).length →
    ravel2 (reshapeLike t f) = f := by
  induction t with
  | nil =>
    intro f h
    simp only [ravel2] at h
    simp only [reshapeLike, ravel2, List.flatten_nil]
    exact (List.eq_nil_of_length_eq_zero (by simpa using h)).symm
  | cons row rest ih =>
    intro f h
    have h' : f.length = row.length + (ravel2 rest).length := by
      simpa [ravel2] using h
    have h2 : (f.drop row.length).length = (ravel2 rest).length := by
      simp only [List.length_drop]; omega
    show (f.take row.length) ++ ravel2 (reshapeLike rest (f.drop row.length)) = f
    rw [ih (f.drop row.length) h2, List.take_append_drop]

/-- One blended element lies between its two sources when `0 ≤ u ≤ 1`. -/
theorem blend_bounds (a b u : ℚ) (h0 : 0 ≤ u) (h1 : u ≤ 1) :
    min a b ≤ a + u * (b - a) ∧ a + u * (b - a) ≤ max a b := by
  rcases le_total a b with hab | hab
  · rw [min_eq_left hab, max_eq_right hab]
    constructor <;> nlinarith
  · rw [min_eq_right hab, max_eq_left hab]
    constructor <;> nlinarith

/-! ### Claim theorems -/

/-- C5 counterexample: the claim asserts, for every `goal ≠ 0`, that the
rate is negative once `score > goal`; at `score = 0`, `goal = -1` we have
`score > goal` and `goal ≠ 0`, yet `mutation_rate 0 (-1) = 1`, which is
not negative. -/
theorem c5_counterexample :
    (0 : ℚ) > -1 ∧ ((-1 : ℚ) ≠ 0) ∧ mutation_rate 0 (-1) = 1 ∧
      ¬ mutation_rate 0 (-1) < 0 := by
  norm_num [mutation_rate]

/-- C5 (amended): for every `goal ≠ 0`, `mutation_rate score goal`
returns exactly `1 - score/goal` without clamping; it equals 0 when
`score = goal`, equals 1 when `score = 0`, and is negative once
`score > goal` provided the goal is positive. -/
theorem c5_amended (score goal : ℚ) (hg : goal ≠ 0) :
    mutation_rate score goal = 1 - score / goal ∧
    (score = goal → mutation_rate score goal = 0) ∧
    (score = 0 → mutation_rate score goal = 1) ∧
    (0 < goal → goal < score → mutation_rate score goal < 0) := by
  refine ⟨rfl, ?_, ?_, ?_⟩
  · rintro rfl
    simp [mutation_rate, div_self hg]
  · rintro rfl
    simp [mutation_rate]
  · intro h0 hs
    have h1 : (1 : ℚ) < score / goal := (one_lt_div h0).mpr hs
    simp only [mutation_rate]
    linarith

theorem c5_amended_witness :
    ((2 : ℚ) ≠ 0) ∧ mutation_rate 3 2 = 1 - 3 / 2 ∧ mutation_rate 3 2 < 0 := by
  refine ⟨by norm_num, (c5_amended 3 2 (by norm_num)).1, ?_⟩
  exact (c5_amended 3 2 (by norm_num)).2.2.2 (by norm_num) (by norm_num)

/-- C9 counterexample: the claim says a size below 2 fails with
`ConfigurationError` instead of returning an undersized population; the
source performs no validation, and at `size = 1` it returns a population
of exactly one agent (its return type is a plain list — there is no
failure channel at all). -/
theorem c9_counterexample :
    initialise_population 1 (fun _ => Network.mk [] []) = [Network.mk [] []] := rfl

/-- C9 (amended): for every size and environment,
`initialise_population size env` returns an ordered population of exactly
`size` agents, the i-th being the result of the i-th
`create_new_network(env)` call; it performs no size validation and never
raises, so sizes 0, 1, …, 3 yield correspondingly undersized populations
rather than a `ConfigurationError`. -/
theorem c9_amended (size : Nat) (create : Nat → Network) :
    (initialise_population size create).length = size ∧
    ∀ i : Nat, i < size →
      (initialise_population size create).getD i ⟨[], []⟩ = create i := by
  constructor
  · simp [initialise_population]
  · intro i hi
    exact getD_range_map size create _ i hi

theorem c9_amended_witness :
    (initialise_population 2 (fun _ => Network.mk [] [])).length = 2 ∧
    (initialise_population 2 (fun _ => Network.mk [] [])).getD 0 ⟨[], []⟩ =
      Network.mk [] [] :=
  ⟨(c9_amended 2 (fun _ => Network.mk [] [])).1,
   (c9_amended 2 (fun _ => Network.mk [] [])).2 0 (by norm_num)⟩

/-- C10: `mutation_rate`'s division by `goal` is unguarded, so the call
raises `ZeroDivisionError` (modelled as `none`) exactly when `goal = 0`,
and otherwise returns `1 - score/goal`. -/
theorem c10_mutation_rate_zero (score goal : ℚ) :
    mutation_rate_run score 0 = none ∧
    (goal ≠ 0 → mutation_rate_run score goal = some (mutation_rate score goal)) := by
  constructor
  · simp [mutation_rate_run, pyDiv]
  · intro h
    simp [mutation_rate_run, pyDiv, h, mutation_rate]

theorem c10_witness :
    mutation_rate_run 3 0 = none ∧ mutation_rate_run 3 2 = some (mutation_rate 3 2) :=
  ⟨(c10_mutation_rate_zero 3 2).1, (c10_mutation_rate_zero 3 2).2 (by norm_num)⟩

/-- The score accumulated by `simSteps` is the accumulator plus the sum of
the rewards of the rollout, whenever the rollout terminates within fuel. -/
theorem simSteps_eq_sum {ω : Type} (env : SimEnv ω) (p : ω → Int) :
    ∀ (fuel : Nat) (obs : ω) (acc : ℚ), (rolloutRewards env p fuel obs).2 = true →
      simSteps env p fuel obs acc = some (acc + (rolloutRewards env p fuel obs).1.sum) := by
  intro fuel
  induction fuel with
  | zero =>
    intro obs acc h
    simp [rolloutRewards] at h
  | succ n ih =>
    intro obs acc h
    by_cases hd : (env.step obs (p obs)).2.2
    · simp [simSteps, rolloutRewards, hd]
    · simp only [simSteps, rolloutRewards, hd, if_false, if_neg] at h ⊢
      rw [ih _ _ (by simpa [rolloutRewards, hd] using h)]
      simp [add_assoc]

/-- C6: `simulate_agent` returns the sum of the rewards produced by
`env.step` over the rollout (whenever the rollout reaches `done` within
the step budget), and in particular, against a deterministic environment
returning `reward = 1` for 5 steps and then `done = True`, the score is
exactly 5 for every agent. -/
theorem c6_simulate :
    (∀ (ω : Type) (env : SimEnv ω) (p : ω → Int) (fuel : Nat),
        (rolloutRewards env p fuel env.reset).2 = true →
        simulate_agent p env fuel = some (rolloutRewards env p fuel env.reset).1.sum) ∧
    (∀ (p : Nat → Int) (k : Nat),
        simulate_agent p ⟨0, fun s _ => (s + 1, 1, decide (s + 1 = 5))⟩ (k + 5) = some 5) := by
  constructor
  · intro ω env p fuel h
    simpa [simulate_agent] using simSteps_eq_sum env p fuel env.reset 0 h
  · intro p k
    show simSteps _ p (k + 5) 0 0 = some 5
    norm_num [simSteps]

theorem c6_simulate_witness :
    simulate_agent (fun _ => 0)
      (⟨0, fun s _ => (s + 1, 1, decide (s + 1 = 5))⟩ : SimEnv Nat) 7 =
        some (rolloutRewards (⟨0, fun s _ => (s + 1, 1, decide (s + 1 = 5))⟩ : SimEnv Nat)
          (fun _ => 0) 7 0).1.sum ∧
    simulate_agent (fun _ => 0)
      (⟨0, fun s _ => (s + 1, 1, decide (s + 1 = 5))⟩ : SimEnv Nat) (2 + 5) = some 5 :=
  ⟨c6_simulate.1 Nat _ (fun _ => 0) 7 (by decide), c6_simulate.2 (fun _ => 0) 2⟩

/-- Mean of a single 1-D tensor is that tensor. -/
theorem find_mean1_singleton (v : Vec) : find_mean1 [v] = v := by
  simp only [find_mean1, List.map_cons, List.map_nil, List.sum_cons, List.sum_nil,
    add_zero, List.length_cons, List.length_nil, zero_add, Nat.cast_one, div_one]
  exact range_map_getD v 0

/-- Mean of a single 2-D tensor is that tensor. -/
theorem find_mean2_singleton (m : Mat) : find_mean2 [m] = m := by
  simp only [find_mean2, List.map_cons, List.map_nil, List.sum_cons, List.sum_nil,
    add_zero, List.length_cons, List.length_nil, zero_add, Nat.cast_one, div_one]
  exact tableRecover2 m

/-- Entry of the mean of two 1-D tensors. -/
theorem find_mean1_pair_getD (vA vB : Vec) (j : Nat) (hj : j < vA.length) :
    (find_mean1 [vA, vB]).getD j 0 = (vA.getD j 0 + vB.getD j 0) / 2 := by
  simp only [find_mean1, List.map_cons, List.map_nil, List.sum_cons, List.sum_nil,
    add_zero, List.length_cons, List.length_nil, zero_add]
  rw [getD_range_map _ _ _ j hj]
  push_cast
  ring

/-- Entry of the mean of two 2-D tensors. -/
theorem find_mean2_pair_getD (mA mB : Mat) (i j : Nat) (hi : i < mA.length)
    (hj : j < (mA.getD i []).length) :
    ((find_mean2 [mA, mB]).getD i []).getD j 0 =
      ((mA.getD i []).getD j 0 + (mB.getD i []).getD j 0) / 2 := by
  simp only [find_mean2, List.map_cons, List.map_nil, List.sum_cons, List.sum_nil,
    add_zero, List.length_cons, List.length_nil, zero_add]
  rw [getD_range_map _ _ _ i hi, getD_range_map _ _ _ j hj]
  push_cast
  ring

/-- Entry of the mean of the tensors `f` extracted from a non-empty
population: the sum of that entry across all members over the population
size. -/
theorem find_mean2_entry (f : Network → Mat) (A : Network) (rest : List Network)
    (i j : Nat) (hi : i < (f A).length) (hj : j < ((f A).getD i []).length) :
    ((find_mean2 ((A :: rest).map f)).getD i []).getD j 0 =
      ((A :: rest).map (fun el => ((f el).getD i []).getD j 0)).sum /
        (A :: rest).length := by
  simp only [List.map_cons, find_mean2]
  rw [getD_range_map _ _ _ i hi, getD_range_map _ _ _ j hj]
  simp [List.map_map, Function.comp]
  rfl

/-- Entry of the mean of the 1-D tensors `f` extracted from a non-empty
population. -/
theorem find_mean1_entry (f : Network → Vec) (A : Network) (rest : List Network)
    (j : Nat) (hj : j < (f A).length) :
    (find_mean1 ((A :: rest).map f)).getD j 0 =
      ((A :: rest).map (fun el => (f el).getD j 0)).sum / (A :: rest).length := by
  simp only [List.map_cons, find_mean1]
  rw [getD_range_map _ _ _ j hj]
  simp [List.map_map, Function.comp]
  rfl

/-- C7: `average_weight_and_bias` is the element-wise arithmetic mean
across every non-empty population: each weight and bias entry of the
result is the sum of that entry across all members divided by the
population size; in particular a singleton population returns tensors
equal to the agent's, and for a pair every entry is `(a + b) / 2`. -/
theorem c7_average :
    (∀ (A : Network) (rest : List Network) (l i j : Nat), l < 2 →
        i < (A.coefs_.getD l []).length →
        j < ((A.coefs_.getD l []).getD i []).length →
        (((average_weight_and_bias (A :: rest)).coefs_.getD l []).getD i []).getD j 0 =
          ((A :: rest).map (fun el => ((el.coefs_.getD l []).getD i []).getD j 0)).sum /
            (A :: rest).length) ∧
    (∀ (A : Network) (rest : List Network) (l j : Nat), l < 2 →
        j < (A.intercepts_.getD l []).length →
        ((average_weight_and_bias (A :: rest)).intercepts_.getD l []).getD j 0 =
          ((A :: rest).map (fun el => (el.intercepts_.getD l []).getD j 0)).sum /
            (A :: rest).length) ∧
    (∀ (c0 c1 : Mat) (v0 v1 : Vec),
        average_weight_and_bias [⟨[c0, c1], [v0, v1]⟩] = ⟨[c0, c1], [v0, v1]⟩) ∧
    (∀ (A B : Network) (l i j : Nat), l < 2 →
        i < (A.coefs_.getD l []).length →
        j < ((A.coefs_.getD l []).getD i []).length →
        (((average_weight_and_bias [A, B]).coefs_.getD l []).getD i []).getD j 0 =
          (((A.coefs_.getD l []).getD i []).getD j 0 +
            ((B.coefs_.getD l []).getD i []).getD j 0) / 2) ∧
    (∀ (A B : Network) (l j : Nat), l < 2 →
        j < (A.intercepts_.getD l []).length →
        ((average_weight_and_bias [A, B]).intercepts_.getD l []).getD j 0 =
          ((A.intercepts_.getD l []).getD j 0 + (B.intercepts_.getD l []).getD j 0) / 2) := by
  refine ⟨?_, ?_, ?_, ?_, ?_⟩
  · intro A rest l i j hl hi hj
    interval_cases l
    · exact find_mean2_entry (fun el => el.coefs_.getD 0 []) A rest i j hi hj
    · exact find_mean2_entry (fun el => el.coefs_.getD 1 []) A rest i j hi hj
  · intro A rest l j hl hj
    interval_cases l
    · exact find_mean1_entry (fun el => el.intercepts_.getD 0 []) A rest j hj
    · exact find_mean1_entry (fun el => el.intercepts_.getD 1 []) A rest j hj
  · intro c0 c1 v0 v1
    simp [average_weight_and_bias, find_mean1_singleton, find_mean2_singleton]
  · intro A B l i j hl hi hj
    interval_cases l
    · exact find_mean2_pair_getD _ _ i j hi hj
    · exact find_mean2_pair_getD _ _ i j hi hj
  · intro A B l j hl hj
    interval_cases l
    · exact find_mean1_pair_getD _ _ j hj
    · exact find_mean1_pair_getD _ _ j hj

theorem c7_average_witness :
    (((average_weight_and_bias [⟨[[[1, 2]], [[3]]], [[4], [5]]⟩,
        ⟨[[[5, 6]], [[7]]], [[8], [9]]⟩,
        ⟨[[[9, 10]], [[11]]], [[12], [13]]⟩]).coefs_.getD 0 []).getD 0 []).getD 0 0 =
      ((1 : ℚ) + 5 + 9) / 3 ∧
    ((average_weight_and_bias [⟨[[[1, 2]], [[3]]], [[4], [5]]⟩,
        ⟨[[[5, 6]], [[7]]], [[8], [9]]⟩,
        ⟨[[[9, 10]], [[11]]], [[12], [13]]⟩]).intercepts_.getD 0 []).getD 0 0 =
      ((4 : ℚ) + 8 + 12) / 3 ∧
    average_weight_and_bias [⟨[[[1, 2]], [[3]]], [[4], [5]]⟩] =
      (⟨[[[1, 2]], [[3]]], [[4], [5]]⟩ : Network) ∧
    (((average_weight_and_bias [⟨[[[1, 2]], [[3]]], [[4], [5]]⟩,
        ⟨[[[5, 6]], [[7]]], [[8], [9]]⟩]).coefs_.getD 0 []).getD 0 []).getD 0 0 =
      (((1 : ℚ)) + 5) / 2 ∧
    ((average_weight_and_bias [⟨[[[1, 2]], [[3]]], [[4], [5]]⟩,
        ⟨[[[5, 6]], [[7]]], [[8], [9]]⟩]).intercepts_.getD 0 []).getD 0 0 =
      (((4 : ℚ)) + 8) / 2 := by
  refine ⟨?_, ?_, c7_average.2.2.1 [[1, 2]] [[3]] [4] [5], ?_, ?_⟩
  · have h := c7_average.1 ⟨[[[1, 2]], [[3]]], [[4], [5]]⟩
      [⟨[[[5, 6]], [[7]]], [[8], [9]]⟩, ⟨[[[9, 10]], [[11]]], [[12], [13]]⟩]
      0 0 0 (by norm_num) (by norm_num [List.getD]) (by norm_num [List.getD])
    norm_num at h
    convert h using 2
    norm_num
  · have h := c7_average.2.1 ⟨[[[1, 2]], [[3]]], [[4], [5]]⟩
      [⟨[[[5, 6]], [[7]]], [[8], [9]]⟩, ⟨[[[9, 10]], [[11]]], [[12], [13]]⟩]
      0 0 (by norm_num) (by norm_num [List.getD])
    norm_num at h
    convert h using 2
    norm_num
  · have h := c7_average.2.2.2.1 ⟨[[[1, 2]], [[3]]], [[4], [5]]⟩ ⟨[[[5, 6]], [[7]]], [[8], [9]]⟩
      0 0 0 (by norm_num) (by norm_num [List.getD]) (by norm_num [List.getD])
    simpa using h
  · have h := c7_average.2.2.2.2 ⟨[[[1, 2]], [[3]]], [[4], [5]]⟩ ⟨[[[5, 6]], [[7]]], [[8], [9]]⟩
      0 0 (by norm_num) (by norm_num [List.getD])
    simpa using h

/-- C8: every element of the `de_crossover` output equals
`a + u * (b - a)` for the corresponding uniform draw `u`, hence lies
between the parents' corresponding elements (inclusive) whenever
`0 ≤ u ≤ 1`; and crossing an agent with itself returns tensors equal to
its own. -/
theorem c8_de_crossover :
    (∀ (nn1 nn2 : Network) (uc ui : Nat → Nat → ℚ) (i j : Nat), i < 2 →
        j < (ravel2 (nn1.coefs_.getD i [])).length →
        0 ≤ uc i j → uc i j ≤ 1 →
        (ravel2 (((de_crossover nn1 nn2 uc ui).1).getD i [])).getD j 0 =
          (ravel2 (nn1.coefs_.getD i [])).getD j 0 + uc i j *
            ((ravel2 (nn2.coefs_.getD i [])).getD j 0 -
              (ravel2 (nn1.coefs_.getD i [])).getD j 0) ∧
        min ((ravel2 (nn1.coefs_.getD i [])).getD j 0)
            ((ravel2 (nn2.coefs_.getD i [])).getD j 0) ≤
          (ravel2 (((de_crossover nn1 nn2 uc ui).1).getD i [])).getD j 0 ∧
        (ravel2 (((de_crossover nn1 nn2 uc ui).1).getD i [])).getD j 0 ≤
          max ((ravel2 (nn1.coefs_.getD i [])).getD j 0)
            ((ravel2 (nn2.coefs_.getD i [])).getD j 0)) ∧
    (∀ (nn1 nn2 : Network) (uc ui : Nat → Nat → ℚ) (i j : Nat), i < 2 →
        j < (nn1.intercepts_.getD i []).length →
        0 ≤ ui i j → ui i j ≤ 1 →
        min ((nn1.intercepts_.getD i []).getD j 0)
            ((nn2.intercepts_.getD i []).getD j 0) ≤
          (((de_crossover nn1 nn2 uc ui).2).getD i []).getD j 0 ∧
        (((de_crossover nn1 nn2 uc ui).2).getD i []).getD j 0 ≤
          max ((nn1.intercepts_.getD i []).getD j 0)
            ((nn2.intercepts_.getD i []).getD j 0)) ∧
    (∀ (c0 c1 : Mat) (v0 v1 : Vec) (uc ui : Nat → Nat → ℚ),
        de_crossover ⟨[c0, c1], [v0, v1]⟩ ⟨[c0, c1], [v0, v1]⟩ uc ui =
          ([c0, c1], [v0, v1])) := by
  refine ⟨?_, ?_, ?_⟩
  · intro nn1 nn2 uc ui i j hi hj hu0 hu1
    have hout : (ravel2 (((de_crossover nn1 nn2 uc ui).1).getD i [])).getD j 0 =
        (ravel2 (nn1.coefs_.getD i [])).getD j 0 + uc i j *
          ((ravel2 (nn2.coefs_.getD i [])).getD j 0 -
            (ravel2 (nn1.coefs_.getD i [])).getD j 0) := by
      interval_cases i
      · rw [show ((de_crossover nn1 nn2 uc ui).1).getD 0 [] =
              reshapeLike (nn1.coefs_.getD 0 [])
                (blendFlat (ravel2 (nn1.coefs_.getD 0 []))
                  (ravel2 (nn2.coefs_.getD 0 [])) (uc 0)) from rfl,
            ravel2_reshapeLike _ _ (blendFlat_length _ _ _),
            blendFlat_getD _ _ _ _ hj]
      · rw [show ((de_crossover nn1 nn2 uc ui).1).getD 1 [] =
              reshapeLike (nn1.coefs_.getD 1 [])
                (blendFlat (ravel2 (nn1.coefs_.getD 1 []))
                  (ravel2 (nn2.coefs_.getD 1 [])) (uc 1)) from rfl,
            ravel2_reshapeLike _ _ (blendFlat_length _ _ _),
            blendFlat_getD _ _ _ _ hj]
    exact ⟨hout, by rw [hout]; exact (blend_bounds _ _ _ hu0 hu1).1,
           by rw [hout]; exact (blend_bounds _ _ _ hu0 hu1).2⟩
  · intro nn1 nn2 uc ui i j hi hj hu0 hu1
    have hout : (((de_crossover nn1 nn2 uc ui).2).getD i []).getD j 0 =
        (nn1.intercepts_.getD i []).getD j 0 + ui i j *
          ((nn2.intercepts_.getD i []).getD j 0 -
            (nn1.intercepts_.getD i []).getD j 0) := by
      interval_cases i
      · rw [show ((de_crossover nn1 nn2 uc ui).2).getD 0 [] =
              blendFlat (nn1.intercepts_.getD 0 [])
                (nn2.intercepts_.getD 0 []) (ui 0) from rfl,
            blendFlat_getD _ _ _ _ hj]
      · rw [show ((de_crossover nn1 nn2 uc ui).2).getD 1 [] =
              blendFlat (nn1.intercepts_.getD 1 [])
                (nn2.intercepts_.getD 1 []) (ui 1) from rfl,
            blendFlat_getD _ _ _ _ hj]
    rw [hout]
    exact blend_bounds _ _ _ hu0 hu1
  · intro c0 c1 v0 v1 uc ui
    show ([reshapeLike c0 (blendFlat (ravel2 c0) (ravel2 c0) (uc 0)),
           reshapeLike c1 (blendFlat (ravel2 c1) (ravel2 c1) (uc 1))],
          [blendFlat v0 v0 (ui 0), blendFlat v1 v1 (ui 1)]) = ([c0, c1], [v0, v1])
    rw [blendFlat_self, blendFlat_self, blendFlat_self, blendFlat_self,
      reshapeLike_ravel, reshapeLike_ravel]

theorem c8_de_crossover_witness :
    ((0 : ℚ) ≤ 1/2 ∧ (1/2 : ℚ) ≤ 1) ∧
    (min (1 : ℚ) 5 ≤ (ravel2 (((de_crossover ⟨[[[1, 2]], [[3]]], [[4], [5]]⟩
        ⟨[[[5, 6]], [[7]]], [[8], [9]]⟩ (fun _ _ => 1/2) (fun _ _ => 1/2)).1).getD 0 [])).getD 0 0 ∧
      (ravel2 (((de_crossover ⟨[[[1, 2]], [[3]]], [[4], [5]]⟩
        ⟨[[[5, 6]], [[7]]], [[8], [9]]⟩ (fun _ _ => 1/2) (fun _ _ => 1/2)).1).getD 0 [])).getD 0 0 ≤
        max (1 : ℚ) 5) ∧
    de_crossover (⟨[[[1, 2]], [[3]]], [[4], [5]]⟩ : Network)
        ⟨[[[1, 2]], [[3]]], [[4], [5]]⟩ (fun _ _ => 1/2) (fun _ _ => 1/2) =
      ([[[1, 2]], [[3]]], [[4], [5]]) := by
  refine ⟨⟨by norm_num, by norm_num⟩, ?_, ?_⟩
  · have h := (c8_de_crossover.1 ⟨[[[1, 2]], [[3]]], [[4], [5]]⟩
      ⟨[[[5, 6]], [[7]]], [[8], [9]]⟩ (fun _ _ => 1/2) (fun _ _ => 1/2)
      0 0 (by norm_num) (by decide) (by norm_num) (by norm_num))
    exact ⟨h.2.1, h.2.2⟩
  · exact c8_de_crossover.2.2 [[1, 2]] [[3]] [4] [5] (fun _ _ => 1/2) (fun _ _ => 1/2)

/-- C1 counterexample: the claim says both crossover operators leave
every parent's tensors unchanged; `de_crossover_classic` writes its trial
vector through `np.ravel` views of the target's tensors, so on this
concrete input (all per-element draws below `CR`) the target agent's
tensors differ from their original values after the call. -/
theorem c1_counterexample :
    (de_crossover_classic ⟨[[[1]], [[2]]], [[3], [4]]⟩
        [⟨[[[10]], [[20]]], [[30], [40]]⟩, ⟨[[[5]], [[6]]], [[7], [8]]⟩,
         ⟨[[[0]], [[0]]], [[0], [0]]⟩]
        (fun _ => 0) (fun _ => 0) (fun _ _ => 0) (fun _ _ => 0)).2 ≠
      (⟨[[[1]], [[2]]], [[3], [4]]⟩ : Network) := by
  norm_num [de_crossover_classic, deTrialFlat, ravel2, reshapeLike,
    List.range_succ, Network.mk.injEq]

/-- C1 (amended): both operators return weight and bias tensors of the
same shapes as the target/first parent, whatever the other parents and
draws are; `de_crossover` computes its child in freshly allocated arrays
and leaves both parents unchanged, but `de_crossover_classic` writes the
child through views of the target's tensors, so after the call the
target's `coefs_` and `intercepts_` equal the returned child tensors
(the three donors are only read and stay unchanged). -/
theorem c1_amended (nn1 nn2 : Network) (uc ui : Nat → Nat → ℚ)
    (agent : Network) (donors : List Network) (Rc Ri : Nat → Nat)
    (rc ri : Nat → Nat → ℚ) (i : Nat) (hi : i < 2) :
    shape2 (((de_crossover nn1 nn2 uc ui).1).getD i []) =
      shape2 (nn1.coefs_.getD i []) ∧
    (((de_crossover nn1 nn2 uc ui).2).getD i []).length =
      (nn1.intercepts_.getD i []).length ∧
    shape2 (((de_crossover_classic agent donors Rc Ri rc ri).1.1).getD i []) =
      shape2 (agent.coefs_.getD i []) ∧
    (((de_crossover_classic agent donors Rc Ri rc ri).1.2).getD i []).length =
      (agent.intercepts_.getD i []).length ∧
    (de_crossover_classic agent donors Rc Ri rc ri).2.coefs_ =
      (de_crossover_classic agent donors Rc Ri rc ri).1.1 ∧
    (de_crossover_classic agent donors Rc Ri rc ri).2.intercepts_ =
      (de_crossover_classic agent donors Rc Ri rc ri).1.2 := by
  refine ⟨?_, ?_, ?_, ?_, rfl, rfl⟩
  · interval_cases i
    · exact shape2_reshapeLike _ _ (blendFlat_length _ _ _)
    · exact shape2_reshapeLike _ _ (blendFlat_length _ _ _)
  · interval_cases i
    · exact blendFlat_length _ _ _
    · exact blendFlat_length _ _ _
  · interval_cases i
    · exact shape2_reshapeLike _ _ (deTrialFlat_length _ _ _ _ _ _)
    · exact shape2_reshapeLike _ _ (deTrialFlat_length _ _ _ _ _ _)
  · interval_cases i
    · exact deTrialFlat_length _ _ _ _ _ _
    · exact deTrialFlat_length _ _ _ _ _ _

theorem c1_amended_witness :
    shape2 (((de_crossover ⟨[[[1, 2]], [[3]]], [[4], [5]]⟩ ⟨[[[5, 6]], [[7]]], [[8], [9]]⟩
        (fun _ _ => 0) (fun _ _ => 0)).1).getD 0 []) = shape2 [[1, 2]] ∧
    (de_crossover_classic ⟨[[[1]], [[2]]], [[3], [4]]⟩ [] (fun _ => 0) (fun _ => 0)
        (fun _ _ => 0) (fun _ _ => 0)).2.coefs_ =
      (de_crossover_classic ⟨[[[1]], [[2]]], [[3], [4]]⟩ [] (fun _ => 0) (fun _ => 0)
        (fun _ _ => 0) (fun _ _ => 0)).1.1 :=
  ⟨(c1_amended ⟨[[[1, 2]], [[3]]], [[4], [5]]⟩ ⟨[[[5, 6]], [[7]]], [[8], [9]]⟩
      (fun _ _ => 0) (fun _ _ => 0) ⟨[[[1]], [[2]]], [[3], [4]]⟩ [] (fun _ => 0)
      (fun _ => 0) (fun _ _ => 0) (fun _ _ => 0) 0 (by norm_num)).1,
   (c1_amended ⟨[[[1, 2]], [[3]]], [[4], [5]]⟩ ⟨[[[5, 6]], [[7]]], [[8], [9]]⟩
      (fun _ _ => 0) (fun _ _ => 0) ⟨[[[1]], [[2]]], [[3], [4]]⟩ [] (fun _ => 0)
      (fun _ => 0) (fun _ _ => 0) (fun _ _ => 0) 0 (by norm_num)).2.2.2.2.1⟩

/-- C3 counterexample: the claim infers that the output element at the
forced index `R` differs from the target's original value whenever
`donor2 ≠ donor3` there.  On this input (weights layer 0, `R = 0`, all
per-element uniform draws equal to 1, so only the forced index is
rewritten) `donor2 = 2 ≠ 1 = donor3`, yet the forced value
`donor1 + F*(donor2 - donor3) = 0 + 0.8*(2 - 1) = 4/5` coincides with the
target's original element, so the output tensor equals the target's
original tensor. -/
theorem c3_counterexample :
    ((de_crossover_classic ⟨[[[4/5]], [[2]]], [[3], [4]]⟩
        [⟨[[[0]], [[20]]], [[30], [40]]⟩, ⟨[[[2]], [[6]]], [[7], [8]]⟩,
         ⟨[[[1]], [[0]]], [[0], [0]]⟩]
        (fun _ => 0) (fun _ => 0) (fun _ _ => 1) (fun _ _ => 1)).1.1).getD 0 [] =
      [[(4 : ℚ)/5]] ∧ ((2 : ℚ) ≠ 1) := by
  constructor
  · norm_num [de_crossover_classic, deTrialFlat, ravel2, reshapeLike, List.range_succ]
  · norm_num

/-- C3 (amended): for each tensor — the two 2-D weight tensors and the
two 1-D bias tensors — `R` is drawn by
`np.random.random_integers(0, len(tensor))`, an inclusive integer range
over the tensor's first-dimension length, not a uniform draw over the
flattened length.  Whenever `R` is a valid flattened index, the output
element there is forced to `donor1 + F*(donor2 - donor3)`; that element
differs from the target's original value precisely when this donor
expression differs from it, which `donor2 ≠ donor3` alone does not
guarantee.  For a bias tensor `R` can equal `len`, and then no element is
forced: every element whose uniform draw is not below `CR` keeps the
target's original value. -/
theorem c3_amended (agent : Network) (donors : List Network)
    (Rc Ri : Nat → Nat) (rc ri : Nat → Nat → ℚ) (i : Nat) (hi : i < 2) :
    (Rc i < (ravel2 (agent.coefs_.getD i [])).length →
      (ravel2 (((de_crossover_classic agent donors Rc Ri rc ri).1.1).getD i [])).getD (Rc i) 0 =
        (ravel2 ((donors.getD 0 ⟨[], []⟩).coefs_.getD i [])).getD (Rc i) 0 +
          4/5 * ((ravel2 ((donors.getD 1 ⟨[], []⟩).coefs_.getD i [])).getD (Rc i) 0 -
                 (ravel2 ((donors.getD 2 ⟨[], []⟩).coefs_.getD i [])).getD (Rc i) 0)) ∧
    (Ri i < (agent.intercepts_.getD i []).length →
      (((de_crossover_classic agent donors Rc Ri rc ri).1.2).getD i []).getD (Ri i) 0 =
        ((donors.getD 0 ⟨[], []⟩).intercepts_.getD i []).getD (Ri i) 0 +
          4/5 * (((donors.getD 1 ⟨[], []⟩).intercepts_.getD i []).getD (Ri i) 0 -
                 ((donors.getD 2 ⟨[], []⟩).intercepts_.getD i []).getD (Ri i) 0)) ∧
    (∀ j : Nat, j < (agent.intercepts_.getD i []).length →
      ¬ (ri i j < 9/10) → j ≠ Ri i →
      (((de_crossover_classic agent donors Rc Ri rc ri).1.2).getD i []).getD j 0 =
        (agent.intercepts_.getD i []).getD j 0) := by
  refine ⟨?_, ?_, ?_⟩
  · intro hR
    interval_cases i
    · rw [show ((de_crossover_classic agent donors Rc Ri rc ri).1.1).getD 0 [] =
          reshapeLike (agent.coefs_.getD 0 [])
            (deTrialFlat (ravel2 (agent.coefs_.getD 0 []))
              (ravel2 ((donors.getD 0 ⟨[], []⟩).coefs_.getD 0 []))
              (ravel2 ((donors.getD 1 ⟨[], []⟩).coefs_.getD 0 []))
              (ravel2 ((donors.getD 2 ⟨[], []⟩).coefs_.getD 0 []))
              (Rc 0) (rc 0)) from rfl,
        ravel2_reshapeLike _ _ (deTrialFlat_length _ _ _ _ _ _),
        deTrialFlat_getD _ _ _ _ _ _ _ hR, if_pos (Or.inr rfl)]
    · rw [show ((de_crossover_classic agent donors Rc Ri rc ri).1.1).getD 1 [] =
          reshapeLike (agent.coefs_.getD 1 [])
            (deTrialFlat (ravel2 (agent.coefs_.getD 1 []))
              (ravel2 ((donors.getD 0 ⟨[], []⟩).coefs_.getD 1 []))
              (ravel2 ((donors.getD 1 ⟨[], []⟩).coefs_.getD 1 []))
              (ravel2 ((donors.getD 2 ⟨[], []⟩).coefs_.getD 1 []))
              (Rc 1) (rc 1)) from rfl,
        ravel2_reshapeLike _ _ (deTrialFlat_length _ _ _ _ _ _),
        deTrialFlat_getD _ _ _ _ _ _ _ hR, if_pos (Or.inr rfl)]
  · intro hR
    interval_cases i
    · rw [show ((de_crossover_classic agent donors Rc Ri rc ri).1.2).getD 0 [] =
          deTrialFlat (agent.intercepts_.getD 0 [])
            ((donors.getD 0 ⟨[], []⟩).intercepts_.getD 0 [])
            ((donors.getD 1 ⟨[], []⟩).intercepts_.getD 0 [])
            ((donors.getD 2 ⟨[], []⟩).intercepts_.getD 0 [])
            (Ri 0) (ri 0) from rfl,
        deTrialFlat_getD _ _ _ _ _ _ _ hR, if_pos (Or.inr rfl)]
    · rw [show ((de_crossover_classic agent donors Rc Ri rc ri).1.2).getD 1 [] =
          deTrialFlat (agent.intercepts_.getD 1 [])
            ((donors.getD 0 ⟨[], []⟩).intercepts_.getD 1 [])
            ((donors.getD 1 ⟨[], []⟩).intercepts_.getD 1 [])
            ((donors.getD 2 ⟨[], []⟩).intercepts_.getD 1 [])
            (Ri 1) (ri 1) from rfl,
        deTrialFlat_getD _ _ _ _ _ _ _ hR, if_pos (Or.inr rfl)]
  · intro j hj hr hne
    interval_cases i
    · rw [show ((de_crossover_classic agent donors Rc Ri rc ri).1.2).getD 0 [] =
          deTrialFlat (agent.intercepts_.getD 0 [])
            ((donors.getD 0 ⟨[], []⟩).intercepts_.getD 0 [])
            ((donors.getD 1 ⟨[], []⟩).intercepts_.getD 0 [])
            ((donors.getD 2 ⟨[], []⟩).intercepts_.getD 0 [])
            (Ri 0) (ri 0) from rfl,
        deTrialFlat_getD _ _ _ _ _ _ _ hj, if_neg (not_or.mpr ⟨hr, hne⟩)]
    · rw [show ((de_crossover_classic agent donors Rc Ri rc ri).1.2).getD 1 [] =
          deTrialFlat (agent.intercepts_.getD 1 [])
            ((donors.getD 0 ⟨[], []⟩).intercepts_.getD 1 [])
            ((donors.getD 1 ⟨[], []⟩).intercepts_.getD 1 [])
            ((donors.getD 2 ⟨[], []⟩).intercepts_.getD 1 [])
            (Ri 1) (ri 1) from rfl,
        deTrialFlat_getD _ _ _ _ _ _ _ hj, if_neg (not_or.mpr ⟨hr, hne⟩)]

theorem c3_amended_witness :
    (ravel2 (((de_crossover_classic ⟨[[[1]], [[2]]], [[3], [4]]⟩
        [⟨[[[10]], [[20]]], [[30], [40]]⟩, ⟨[[[5]], [[6]]], [[7], [8]]⟩,
         ⟨[[[0]], [[0]]], [[0], [0]]⟩]
        (fun _ => 0) (fun _ => 0) (fun _ _ => 1) (fun _ _ => 1)).1.1).getD 0 [])).getD 0 0 =
      10 + 4/5 * (5 - 0) ∧
    (((de_crossover_classic ⟨[[[1]], [[2]]], [[3], [4]]⟩
        [⟨[[[10]], [[20]]], [[30], [40]]⟩, ⟨[[[5]], [[6]]], [[7], [8]]⟩,
         ⟨[[[0]], [[0]]], [[0], [0]]⟩]
        (fun _ => 0) (fun _ => 0) (fun _ _ => 1) (fun _ _ => 1)).1.2).getD 0 []).getD 0 0 =
      30 + 4/5 * (7 - 0) ∧
    (((de_crossover_classic ⟨[[[1]], [[2]]], [[3], [4]]⟩
        [⟨[[[10]], [[20]]], [[30], [40]]⟩, ⟨[[[5]], [[6]]], [[7], [8]]⟩,
         ⟨[[[0]], [[0]]], [[0], [0]]⟩]
        (fun _ => 0) (fun _ => 1) (fun _ _ => 1) (fun _ _ => 1)).1.2).getD 0 []).getD 0 0 =
      ((3 : ℚ)) :=
  ⟨(c3_amended ⟨[[[1]], [[2]]], [[3], [4]]⟩
      [⟨[[[10]], [[20]]], [[30], [40]]⟩, ⟨[[[5]], [[6]]], [[7], [8]]⟩,
       ⟨[[[0]], [[0]]], [[0], [0]]⟩]
      (fun _ => 0) (fun _ => 0) (fun _ _ => 1) (fun _ _ => 1) 0 (by norm_num)).1 (by decide),
   (c3_amended ⟨[[[1]], [[2]]], [[3], [4]]⟩
      [⟨[[[10]], [[20]]], [[30], [40]]⟩, ⟨[[[5]], [[6]]], [[7], [8]]⟩,
       ⟨[[[0]], [[0]]], [[0], [0]]⟩]
      (fun _ => 0) (fun _ => 0) (fun _ _ => 1) (fun _ _ => 1) 0 (by norm_num)).2.1 (by decide),
   (c3_amended ⟨[[[1]], [[2]]], [[3], [4]]⟩
      [⟨[[[10]], [[20]]], [[30], [40]]⟩, ⟨[[[5]], [[6]]], [[7], [8]]⟩,
       ⟨[[[0]], [[0]]], [[0], [0]]⟩]
      (fun _ => 0) (fun _ => 1) (fun _ _ => 1) (fun _ _ => 1) 0 (by norm_num)).2.2
     0 (by decide) (by norm_num) (by norm_num)⟩

/-- The 1-D row loop with method `gaussian` never writes the array. -/
theorem mutVecGo_gaussian_fst (rate : ℚ) :
    ∀ (idxs : List Nat) (v : Vec) (g : RngSt),
      (mutVecGo ("gaussian") rate idxs v g).1 = v := by
  intro idxs
  induction idxs with
  | nil => intro v g; rfl
  | cons i rest ih =>
    intro v g
    show (mutVecGo ("gaussian") rate (i :: rest) v g).1 = v
    rw [mutVecGo]
    split
    · exact ih v _
    · exact ih v _

/-- The 2-D row loop with method `gaussian` never writes the array. -/
theorem mutMatGo_gaussian_fst (rate : ℚ) :
    ∀ (idxs : List Nat) (m : Mat) (g : RngSt),
      (mutMatGo ("gaussian") rate idxs m g).1 = m := by
  intro idxs
  induction idxs with
  | nil => intro m g; rfl
  | cons i rest ih =>
    intro m g
    show (mutMatGo ("gaussian") rate (i :: rest) m g).1 = m
    rw [mutMatGo]
    split
    · exact ih m _
    · exact ih m _

/-- Folding the `gaussian` loop over the coefs list changes nothing. -/
theorem mutMats_gaussian_fst (rate : ℚ) :
    ∀ (ms : List Mat) (g : RngSt), (mutMats ("gaussian") rate ms g).1 = ms := by
  intro ms
  induction ms with
  | nil => intro g; rfl
  | cons m rest ih =>
    intro g
    show (mutMat ("gaussian") rate m g).1 :: (mutMats ("gaussian") rate rest _).1 =
      m :: rest
    rw [ih, mutMat, mutMatGo_gaussian_fst]

/-- Folding the `gaussian` loop over the intercepts list changes nothing. -/
theorem mutVecs_gaussian_fst (rate : ℚ) :
    ∀ (vs : List Vec) (g : RngSt), (mutVecs ("gaussian") rate vs g).1 = vs := by
  intro vs
  induction vs with
  | nil => intro g; rfl
  | cons v rest ih =>
    intro g
    show (mutVec ("gaussian") rate v g).1 :: (mutVecs ("gaussian") rate rest _).1 =
      v :: rest
    rw [ih, mutVec, mutVecGo_gaussian_fst]

/-- C2: under strategy `gaussian`, `mutationFunc_W_B` returns the agent
with every weight and bias unchanged, for every rate and every sequence
of random draws — `inner += np.random.normal(0, 2)` and
`swappedRow += np.random.normal(0, 2)` rebind loop-local NumPy scalars
and never write the arrays, so no scalar is ever perturbed (the claim's
"adds noise to each scalar of the affected row" never happens). -/
theorem c2_gaussian_noop (agent : Network) (rate : ℚ) (g : RngSt) :
    mutationFunc_W_B agent rate ("gaussian") g = agent := by
  show (⟨(mutMats ("gaussian") rate agent.coefs_ g).1,
        (mutVecs ("gaussian") rate agent.intercepts_ _).1⟩ : Network) = agent
  rw [mutMats_gaussian_fst, mutVecs_gaussian_fst]

/-- C4: on the failing input — an agent whose first bias tensor is
`[1, 2]`, a rate that lets only the first element's coin pass, and draws
selecting `random1 = 1` — the `swap` branch overwrites position 1 with
position 0's value instead of exchanging the two: the result is `[1, 1]`
(position 0 is unchanged, position 1's former value is lost), not the
exchange `[2, 1]`, and the multiset of values is not preserved. -/
theorem c4_swap_eval :
    mutationFunc_W_B ⟨[], [[1, 2]]⟩ (1/2) ("swap") ⟨[0, 9/10, 19/20, 9/10], [], []⟩ =
      ⟨[], [[1, 1]]⟩ ∧ ¬ ([(1 : ℚ), 1].Perm [1, 2]) := by
  constructor
  · have hstep : mutVec ("swap") (1/2) [1, 2] ⟨[0, 9/10, 19/20, 9/10], [], []⟩ =
        ([1, 1], ⟨[], [], []⟩) := by
      show mutVecGo ("swap") (1/2) [0, 1] [1, 2] ⟨[0, 9/10, 19/20, 9/10], [], []⟩ =
        ([1, 1], ⟨[], [], []⟩)
      norm_num [mutVecGo, take1, pyIdx]
    show (⟨[], [(mutVec ("swap") (1/2) [1, 2] ⟨[0, 9/10, 19/20, 9/10], [], []⟩).1]⟩ :
        Network) = ⟨[], [[1, 1]]⟩
    rw [hstep]
  · decide

end EvoANN
